/-
  Verification of the agenai-trader decision-pipeline core.

  Shallow embedding of the plugin components of the repository:
  - `ThresholdAtrPolicy` (packages/plugins/src/policy/thresholdAtr.ts)
  - `MACDAlpha`          (packages/plugins/src/alpha/macd.ts)
  - `AR4Alpha`           (packages/plugins/src/alpha/ar4.ts, with `fitAR4`,
                          `solveOLS`, `invertMatrix`, `predictAR4`)
  - return utilities     (packages/features/src/rolling.ts)

  Modelling conventions:
  - JS `number` values appearing in feature maps are modelled by `FeatVal`:
    a value may be absent (`undef`), `NaN` (`nan`), or a numeric value,
    modelled as an exact rational (`num q`).  Arithmetic on numeric values
    is exact rational arithmetic; decimal literals such as `0.8` or `1e-10`
    denote the exact rational the source literal denotes.
  - Mutable instance state becomes an explicit state value threaded through
    pure step functions returning `(output, newState)`.
  - A JS `throw` is modelled as `Except.error` carrying the thrown message.
  - `Math.log`, used only by `logReturn`, is abstracted as a function
    parameter: every claim about `logReturn` concerns only the guard that
    decides whether `NaN` is returned.
  - JS division by a zero denominator yields `Infinity`, which the
    subsequent `Math.min(·, maxSize)` clamp turns into `maxSize`; the
    embedding makes that zero-denominator case explicit (signed zero is
    not modelled).
  - Zod schema validation (`…Schema.parse`) on well-typed values is the
    identity; schema range constraints appear as explicit validity
    predicates on configurations.
-/
import Mathlib

namespace AgenaiTrader

/-! ## Feature values and features -/

/-- A value looked up in a JS `Record<string, number>`: it may be absent
(`undefined`), `NaN`, or an actual number (modelled as an exact rational). -/
inductive FeatVal where
  | undef : FeatVal
  | nan : FeatVal
  | num (q : ℚ) : FeatVal
deriving DecidableEq, Repr

/-- `true` exactly when the JS guard `v !== undefined && !isNaN(v)` passes. -/
def FeatVal.isNum : FeatVal → Bool
  | .num _ => true
  | _ => false

/-- The feature-map entries read by the plugins under verification
(`features.vals` in the source). -/
structure FeatureVals where
  atr_14 : FeatVal := .undef
  close : FeatVal := .undef
  macd : FeatVal := .undef
  macd_signal : FeatVal := .undef
  macd_histogram : FeatVal := .undef
  return_1 : FeatVal := .undef
deriving DecidableEq, Repr

/-- A `Features` record (the fields the plugins read). -/
structure Features where
  t : ℤ
  symbol : String
  exch : String
  tf : String
  vals : FeatureVals
deriving DecidableEq, Repr

/-! ## Alpha signals -/

/-- The human-readable rationale attached to an alpha signal.  The source
builds an English sentence; the embedding keeps the semantic content that
the sentence renders (which branch produced the signal, and the numbers
interpolated into the text). -/
inductive Explain where
  | macdBullishCrossover : Explain
  | macdBearishCrossover : Explain
  | macdHistogram (positive : Bool) (strengthening : Bool) (histogram : ℚ) : Explain
  | ar4Prediction (predictedReturn : ℚ) (rSquared : ℚ) : Explain
deriving DecidableEq, Repr

/-- An `AlphaSignal` record. -/
structure AlphaSignal where
  id : String
  t : ℤ
  symbol : String
  exch : String
  tf : String
  score : ℚ
  conf : ℚ
  horizon_sec : ℤ
  explain : Explain
deriving DecidableEq, Repr

/-! ## Actions -/

inductive Side where
  | buy : Side
  | sell : Side
deriving DecidableEq, Repr

def Side.opposite : Side → Side
  | .buy => .sell
  | .sell => .buy

/-- Bracket orders (take-profit / stop-loss). -/
structure Bracket where
  tp : ℚ
  sl : ℚ
deriving DecidableEq, Repr

/-- The metadata object attached to an `Action`: open actions carry
`signalId`, `signalScore`, `signalConf`, `atr`; close actions carry
`signalId` and `reason`. -/
structure ActionMeta where
  signalId : String
  signalScore : Option ℚ := none
  signalConf : Option ℚ := none
  atr : Option ℚ := none
  reason : Option String := none
deriving DecidableEq, Repr

/-- An `Action` record. -/
structure Action where
  t : ℤ
  symbol : String
  exch : String
  side : Side
  size : ℚ
  bracket : Option Bracket := none
  entry : Option ℚ := none
  metadata : ActionMeta
deriving DecidableEq, Repr

/-! ## ThresholdAtrPolicy -/

/-- `ThresholdAtrConfigSchema`-shaped configuration. -/
structure ThresholdAtrConfig where
  enterThreshold : ℚ := 0.5
  exitThreshold : ℚ := 0.3
  fixedNotional : ℚ := 1000
  useAtrSizing : Bool := false
  atrSizingMultiplier : ℚ := 1
  atrTpMultiplier : ℚ := 2
  atrSlMultiplier : ℚ := 1
  maxSize : ℚ := 10
deriving DecidableEq, Repr

/-- The range constraints imposed by `ThresholdAtrConfigSchema`
(`min(0)/max(1)` on the thresholds, `positive()` on the rest). -/
def ThresholdAtrConfigValid (c : ThresholdAtrConfig) : Prop :=
  0 ≤ c.enterThreshold ∧ c.enterThreshold ≤ 1 ∧
  0 ≤ c.exitThreshold ∧ c.exitThreshold ≤ 1 ∧
  0 < c.fixedNotional ∧ 0 < c.atrSizingMultiplier ∧
  0 < c.atrTpMultiplier ∧ 0 < c.atrSlMultiplier ∧ 0 < c.maxSize

instance (c : ThresholdAtrConfig) : Decidable (ThresholdAtrConfigValid c) := by
  unfold ThresholdAtrConfigValid; infer_instance

/-- `PolicyState`: current side (`none` = flat) and size. -/
structure PolicyState where
  side : Option Side
  size : ℚ
deriving DecidableEq, Repr

/-- The freshly-initialised policy state (`{ side: null, size: 0 }`). -/
def initPolicyState : PolicyState := ⟨none, 0⟩

/-- `reset()` puts the state back to the initial state. -/
def policyReset (_s : PolicyState) : PolicyState := initPolicyState

/-- The `ThresholdAtrPolicy` constructor after a successful schema parse:
throws when `enterThreshold < exitThreshold`, otherwise yields the parsed
config together with the initial (flat) state. -/
def mkThresholdAtrPolicy (c : ThresholdAtrConfig) :
    Except String (ThresholdAtrConfig × PolicyState) :=
  if c.enterThreshold < c.exitThreshold then
    .error "enterThreshold must be >= exitThreshold for proper hysteresis"
  else
    .ok (c, initPolicyState)

/-- `computeBracket`: TP/SL at configured ATR multiples from entry,
mirrored for shorts. -/
def computeBracket (c : ThresholdAtrConfig) (entryPrice atr : ℚ) (side : Side) :
    Bracket :=
  let tpDistance := atr * c.atrTpMultiplier
  let slDistance := atr * c.atrSlMultiplier
  match side with
  | .buy => ⟨entryPrice + tpDistance, entryPrice - slDistance⟩
  | .sell => ⟨entryPrice - tpDistance, entryPrice + slDistance⟩

/-- Position size computed by `buildOpenAction`:
`fixedNotional / price` (simple mode) or
`fixedNotional / (price * atr * atrSizingMultiplier)` (ATR mode),
clamped to `maxSize`.  A zero denominator gives `Infinity` in JS, which the
`Math.min` clamp turns into `maxSize`. -/
def openSize (c : ThresholdAtrConfig) (currentPrice atr : ℚ) : ℚ :=
  let denom :=
    if c.useAtrSizing then currentPrice * (atr * c.atrSizingMultiplier)
    else currentPrice
  if denom = 0 then c.maxSize
  else min (c.fixedNotional / denom) c.maxSize

/-- `buildOpenAction`: construct the open action and the updated
(in-position) state. -/
def buildOpenAction (c : ThresholdAtrConfig) (signal : AlphaSignal)
    (currentPrice atr : ℚ) (direction : Side) : Action × PolicyState :=
  let size := openSize c currentPrice atr
  let bracket := computeBracket c currentPrice atr direction
  ({ t := signal.t
     symbol := signal.symbol
     exch := signal.exch
     side := direction
     size := size
     bracket := some bracket
     entry := none
     metadata :=
       { signalId := signal.id
         signalScore := some signal.score
         signalConf := some signal.conf
         atr := some atr
         reason := none } },
   { side := some direction, size := size })

/-- `buildCloseAction`: throws when already flat, otherwise emits the
opposite-side full-size close (tagged `reason = "exit_threshold"`) and the
flat state. -/
def buildCloseAction (s : PolicyState) (signal : AlphaSignal)
    (currentPrice : ℚ) : Except String (Action × PolicyState) :=
  match s.side with
  | none => .error "Cannot close position: already flat"
  | some sd =>
    if s.size = 0 then .error "Cannot close position: already flat"
    else
      .ok
        ({ t := signal.t
           symbol := signal.symbol
           exch := signal.exch
           side := sd.opposite
           size := s.size
           bracket := none
           entry := some currentPrice
           metadata :=
             { signalId := signal.id
               signalScore := none
               signalConf := none
               atr := none
               reason := some "exit_threshold" } },
         { side := none, size := 0 })

/-- `generateAction`: the hysteresis state machine.  Returns the optional
action (or the propagated exception) together with the state after the
call; a thrown exception leaves the state as it was (the source throws
before any mutation). -/
def generateAction (c : ThresholdAtrConfig) (s : PolicyState)
    (signal : AlphaSignal) (features : Features) :
    Except String (Option Action) × PolicyState :=
  match features.vals.atr_14, features.vals.close with
  | .num atr, .num currentPrice =>
    let absScore := |signal.score|
    let direction : Side := if 0 < signal.score then .buy else .sell
    match s.side with
    | none =>
      if c.enterThreshold ≤ absScore then
        let (a, s') := buildOpenAction c signal currentPrice atr direction
        (.ok (some a), s')
      else
        (.ok none, s)
    | some currentDirection =>
      if direction ≠ currentDirection ∧ c.enterThreshold ≤ absScore then
        -- Reversal: the close action is built (and may throw) but is
        -- discarded; only the new open action is returned.
        match buildCloseAction s signal currentPrice with
        | .error e => (.error e, s)
        | .ok _ =>
          let (a, s') := buildOpenAction c signal currentPrice atr direction
          (.ok (some a), s')
      else if absScore < c.exitThreshold then
        match buildCloseAction s signal currentPrice with
        | .error e => (.error e, s)
        | .ok (a, s') => (.ok (some a), s')
      else
        (.ok none, s)
  | _, _ => (.ok none, s)

/-- The `generateAction` state trace over a list of (signal, features)
inputs: the per-call results, and the final state. -/
def runPolicy (c : ThresholdAtrConfig) (s : PolicyState) :
    List (AlphaSignal × Features) →
    List (Except String (Option Action)) × PolicyState
  | [] => ([], s)
  | (sig, f) :: rest =>
    let (o, s') := generateAction c s sig f
    let (os, sEnd) := runPolicy c s' rest
    (o :: os, sEnd)

/-! ## MACDAlpha -/

/-- `MACDConfigSchema`-shaped configuration. -/
structure MACDConfig where
  minHistogram : ℚ := 0.0001
  horizonSec : ℤ := 300
  useCrossover : Bool := true
deriving DecidableEq, Repr

/-- `MACDState`: previous MACD / signal line / histogram values, each
nullable until first observation. -/
structure MACDState where
  prevMacd : Option ℚ
  prevSignal : Option ℚ
  prevHistogram : Option ℚ
deriving DecidableEq, Repr

/-- The freshly-initialised MACD state (all three trackers `null`). -/
def initMACDState : MACDState := ⟨none, none, none⟩

/-- `updateState`: store the current observation as the new previous
values. -/
def macdUpdateState (_s : MACDState) (macd signal histogram : ℚ) : MACDState :=
  ⟨some macd, some signal, some histogram⟩

inductive Crossover where
  | bullish : Crossover
  | bearish : Crossover
deriving DecidableEq, Repr

/-- `detectCrossover`: bullish when previous MACD was below the previous
signal line and the current MACD is above the current signal line; bearish
in the mirrored case; `null` otherwise (or without full history). -/
def detectCrossover (s : MACDState) (macd signal : ℚ) : Option Crossover :=
  match s.prevMacd, s.prevSignal with
  | some prevMacd, some prevSignal =>
    if prevMacd < prevSignal ∧ signal < macd then some .bullish
    else if prevSignal < prevMacd ∧ macd < signal then some .bearish
    else none
  | _, _ => none

/-- `computeHistogramSignal`: direction from the histogram sign, score
`clamp(-1, 1, histogram * 1000)`, confidence 0.7/0.3 by momentum
direction (0.5 before any previous histogram is recorded). -/
def computeHistogramSignal (s : MACDState) (histogram : ℚ) :
    ℚ × ℚ × Explain :=
  let direction : ℚ := if 0 < histogram then 1 else -1
  let momentumStrength : ℚ :=
    match s.prevHistogram with
    | none => 0.5
    | some prevHistogram =>
      let histogramChange := histogram - prevHistogram
      if (0 < direction ∧ 0 < histogramChange) ∨
         (direction < 0 ∧ histogramChange < 0) then 0.7
      else 0.3
  let score := max (-1) (min 1 (histogram * 1000))
  (score, momentumStrength,
   .macdHistogram (decide (0 < histogram)) (decide ((0.5 : ℚ) < momentumStrength))
     histogram)

/-- `MACDAlpha.generateSignal` as a pure step: optional signal plus the
state after the call. -/
def generateSignalMACD (c : MACDConfig) (s : MACDState) (features : Features) :
    Option AlphaSignal × MACDState :=
  match features.vals.macd, features.vals.macd_signal,
        features.vals.macd_histogram with
  | .num macd, .num signal, .num histogram =>
    if |histogram| < c.minHistogram then
      -- Update state and skip signal
      (none, macdUpdateState s macd signal histogram)
    else
      let (score, conf, explain) :=
        if c.useCrossover ∧ s.prevMacd ≠ none then
          match detectCrossover s macd signal with
          | some .bullish => ((1 : ℚ), (0.8 : ℚ), Explain.macdBullishCrossover)
          | some .bearish => ((-1 : ℚ), (0.8 : ℚ), Explain.macdBearishCrossover)
          | none => computeHistogramSignal s histogram
        else
          computeHistogramSignal s histogram
      let s' := macdUpdateState s macd signal histogram
      if score = 0 ∨ conf = 0 then (none, s')
      else
        (some
          { id := "macd-" ++ toString features.t
            t := features.t
            symbol := features.symbol
            exch := features.exch
            tf := features.tf
            score := score
            conf := conf
            horizon_sec := c.horizonSec
            explain := explain },
         s')
  | _, _, _ => (none, s)

/-- The `MACDAlpha.generateSignal` trace over a list of features. -/
def runMACD (c : MACDConfig) (s : MACDState) :
    List Features → List (Option AlphaSignal) × MACDState
  | [] => ([], s)
  | f :: rest =>
    let (o, s') := generateSignalMACD c s f
    let (os, sEnd) := runMACD c s' rest
    (o :: os, sEnd)

/-! ## AR(4): matrix inversion, OLS fit, prediction -/

/-- Read entry `(i, j)` of a row-list matrix (out-of-range reads default to
0; the source never reads out of range on well-formed inputs). -/
def entry (m : List (List ℚ)) (i j : ℕ) : ℚ := (m.getD i []).getD j 0

/-- Row `i` of the `n × n` identity matrix. -/
def identityRow (n i : ℕ) : List ℚ :=
  (List.range n).map fun j => if i = j then 1 else 0

/-- The `n × n` identity matrix. -/
def idMatrix (n : ℕ) : List (List ℚ) :=
  (List.range n).map fun i => identityRow n i

/-- Swap rows `i` and `j` of a row-list matrix. -/
def swapRows (m : List (List ℚ)) (i j : ℕ) : List (List ℚ) :=
  (m.set i (m.getD j [])).set j (m.getD i [])

/-- Partial pivoting: the index (from row `i` down) of the row whose
column-`i` entry has the strictly largest magnitude (first maximal wins,
as in the source's `>` comparison). -/
def pivotRow (aug : List (List ℚ)) (i n : ℕ) : ℕ :=
  (List.range (n - (i + 1))).foldl
    (fun maxRow d =>
      let k := i + 1 + d
      if |entry aug maxRow i| < |entry aug k i| then k else maxRow)
    i

/-- The singularity threshold `1e-10` of `invertMatrix`. -/
def pivotEps : ℚ := 1e-10

/-- One column-elimination pass: for every row `k ≠ i`, subtract
`aug[k][i] *` (row `i`) from row `k`. -/
def eliminateColumn (aug : List (List ℚ)) (i n : ℕ) : List (List ℚ) :=
  (List.range n).foldl
    (fun a k =>
      if k = i then a
      else
        let factor := entry a k i
        a.set k (List.zipWith (fun x y => x - factor * y)
          (a.getD k []) (a.getD i [])))
    aug

/-- The forward-elimination loop of `invertMatrix`, with the singularity
check: `none` models the source's early `return identity` when a pivot of
magnitude below `1e-10` is met.  `steps` counts the remaining iterations,
so the current column is `n - steps`. -/
def elimLoop (n : ℕ) : ℕ → List (List ℚ) → Option (List (List ℚ))
  | 0, aug => some aug
  | steps + 1, aug =>
    let i := n - (steps + 1)
    let aug1 := swapRows aug i (pivotRow aug i n)
    let pivot := entry aug1 i i
    if |pivot| < pivotEps then none
    else
      let aug2 := aug1.set i ((aug1.getD i []).map (· / pivot))
      elimLoop n steps (eliminateColumn aug2 i n)

/-- The same forward elimination without the singularity check (rational
division by zero yields 0, so the recursion is total). -/
def elimLoopNoCheck (n : ℕ) : ℕ → List (List ℚ) → List (List ℚ)
  | 0, aug => aug
  | steps + 1, aug =>
    let i := n - (steps + 1)
    let aug1 := swapRows aug i (pivotRow aug i n)
    let pivot := entry aug1 i i
    let aug2 := aug1.set i ((aug1.getD i []).map (· / pivot))
    elimLoopNoCheck n steps (eliminateColumn aug2 i n)

/-- The `[matrix | identity]` augmented matrix. -/
def augmentMatrix (m : List (List ℚ)) : List (List ℚ) :=
  (m.enum).map fun (i, row) => row ++ identityRow m.length i

/-- `invertMatrix`: Gaussian elimination with partial pivoting on the
augmented matrix; falls back to the identity matrix when a pivot magnitude
below `1e-10` is met. -/
def invertMatrix (m : List (List ℚ)) : List (List ℚ) :=
  let n := m.length
  match elimLoop n n (augmentMatrix m) with
  | none => idMatrix n
  | some aug => aug.map (List.drop n)

/-- Whether the elimination run on `m` meets a pivot of magnitude below
`1e-10` at some step (the singular-matrix fallback condition). -/
def hitsSmallPivot (m : List (List ℚ)) : Bool :=
  (elimLoop m.length m.length (augmentMatrix m)).isNone

/-- The plain Gaussian-elimination inverse of `m` (elimination run to the
end, no singularity fallback). -/
def gaussInverse (m : List (List ℚ)) : List (List ℚ) :=
  let n := m.length
  (elimLoopNoCheck n n (augmentMatrix m)).map (List.drop n)

/-- Fitted AR(4) coefficients and goodness of fit. -/
structure ARCoefficients where
  beta0 : ℚ
  beta1 : ℚ
  beta2 : ℚ
  beta3 : ℚ
  beta4 : ℚ
  rSquared : ℚ
deriving DecidableEq, Repr

/-- The all-zero fit returned when there is not enough data. -/
def zeroFit : ARCoefficients := ⟨0, 0, 0, 0, 0, 0⟩

/-- `solveOLS`: `β = (XᵗX)⁻¹ Xᵗy` with the 5×5 inversion done by
`invertMatrix`. -/
def solveOLS (X : List (List ℚ)) (y : List ℚ) : List ℚ :=
  let n := X.length
  let k := (X.headD []).length
  let XtX := (List.range k).map fun i =>
    (List.range k).map fun j =>
      ((List.range n).map fun m => entry X m i * entry X m j).sum
  let Xty := (List.range k).map fun i =>
    ((List.range n).map fun m => entry X m i * y.getD m 0).sum
  let XtXInv := invertMatrix XtX
  (List.range k).map fun i =>
    ((List.range k).map fun j => entry XtXInv i j * Xty.getD j 0).sum

/-- `fitAR4`: OLS fit of `r(t)` against `[1, r(t-1), …, r(t-4)]`; returns
the all-zero fit when fewer than 10 returns are available, and clamps R²
to `[0, 1]`. -/
def fitAR4 (returns : List ℚ) : ARCoefficients :=
  if returns.length < 10 then zeroFit
  else
    let idx := (List.range returns.length).drop 4
    let X := idx.map fun i =>
      [1, returns.getD (i - 1) 0, returns.getD (i - 2) 0,
       returns.getD (i - 3) 0, returns.getD (i - 4) 0]
    let y := idx.map fun i => returns.getD i 0
    if X.length = 0 then zeroFit
    else
      let beta := solveOLS X y
      let yMean := y.sum / y.length
      let ssTot := (y.map fun v => (v - yMean) ^ 2).sum
      let ssRes :=
        ((List.range y.length).map fun i =>
          let yPred := beta.getD 0 0 + beta.getD 1 0 * entry X i 1 +
            beta.getD 2 0 * entry X i 2 + beta.getD 3 0 * entry X i 3 +
            beta.getD 4 0 * entry X i 4
          (y.getD i 0 - yPred) ^ 2).sum
      let rSquared := if ssTot = 0 then 0 else 1 - ssRes / ssTot
      { beta0 := beta.getD 0 0
        beta1 := beta.getD 1 0
        beta2 := beta.getD 2 0
        beta3 := beta.getD 3 0
        beta4 := beta.getD 4 0
        rSquared := max 0 (min 1 rSquared) }

/-- `predictAR4`: `β0 + Σ βᵢ·r(t−i)` over the four most recent returns
(most recent first). -/
def predictAR4 (c : ARCoefficients) (recentReturns : List ℚ) : ℚ :=
  c.beta0 + c.beta1 * recentReturns.getD 0 0 + c.beta2 * recentReturns.getD 1 0 +
    c.beta3 * recentReturns.getD 2 0 + c.beta4 * recentReturns.getD 3 0

/-! ## AR4Alpha -/

/-- `AR4ConfigSchema`-shaped configuration. -/
structure AR4Config where
  fitWindow : ℕ := 100
  horizonSec : ℤ := 300
  minRSquared : ℚ := 0.1
deriving DecidableEq, Repr

/-- `AR4Alpha` instance state: optional fitted coefficients and the FIFO
return history. -/
structure AR4State where
  coefficients : Option ARCoefficients
  returnHistory : List ℚ
deriving DecidableEq, Repr

/-- The freshly-initialised AR4 state. -/
def initAR4State : AR4State := ⟨none, []⟩

/-- The history update of `AR4Alpha.generateSignal`: push the new return,
then `shift()` the oldest one out when the fit window is exceeded. -/
def ar4PushHistory (c : AR4Config) (history : List ℚ) (r : ℚ) : List ℚ :=
  let history1 := history ++ [r]
  if c.fitWindow < history1.length then history1.drop 1 else history1

/-- The refit decision of `AR4Alpha.generateSignal`: refit when the
history length is a multiple of 20 or no fit exists yet. -/
def ar4Refit (coefficients : Option ARCoefficients) (history2 : List ℚ) :
    Option ARCoefficients :=
  if history2.length % 20 = 0 ∨ coefficients = none then
    some (fitAR4 history2)
  else coefficients

/-- The signal-emission part of `AR4Alpha.generateSignal`: `null` without
a fit, with fewer than 4 returns, or below the R² threshold; otherwise
the prediction-based signal. -/
def ar4Emit (c : AR4Config) (features : Features)
    (coefficients : Option ARCoefficients) (history2 : List ℚ) :
    Option AlphaSignal :=
  match coefficients with
  | none => none
  | some coeffs =>
    if history2.length < 4 then none
    else if coeffs.rSquared < c.minRSquared then none
    else
      let len := history2.length
      let recentReturns :=
        [history2.getD (len - 1) 0, history2.getD (len - 2) 0,
         history2.getD (len - 3) 0, history2.getD (len - 4) 0]
      let predictedReturn := predictAR4 coeffs recentReturns
      let score := max (-1) (min 1 (predictedReturn * 100))
      some
        { id := "ar4-" ++ toString features.t
          t := features.t
          symbol := features.symbol
          exch := features.exch
          tf := features.tf
          score := score
          conf := coeffs.rSquared
          horizon_sec := c.horizonSec
          explain := .ar4Prediction predictedReturn coeffs.rSquared }

/-- `AR4Alpha.generateSignal` as a pure step: optional signal plus the
state after the call. -/
def generateSignalAR4 (c : AR4Config) (s : AR4State) (features : Features) :
    Option AlphaSignal × AR4State :=
  match features.vals.return_1 with
  | .num currentReturn =>
    let history2 := ar4PushHistory c s.returnHistory currentReturn
    let coefficients := ar4Refit s.coefficients history2
    (ar4Emit c features coefficients history2, ⟨coefficients, history2⟩)
  | _ => (none, s)

/-- The `AR4Alpha.generateSignal` trace over a list of features. -/
def runAR4 (c : AR4Config) (s : AR4State) :
    List Features → List (Option AlphaSignal) × AR4State
  | [] => ([], s)
  | f :: rest =>
    let (o, s') := generateSignalAR4 c s f
    let (os, sEnd) := runAR4 c s' rest
    (o :: os, sEnd)

/-! ## Return utilities (rolling.ts) -/

/-- `percentChange`: `NaN` (here `none`) when the previous value is zero,
else the percentage change. -/
def percentChange (current previous : ℚ) : Option ℚ :=
  if previous = 0 then none
  else some ((current - previous) / previous * 100)

/-- `simpleReturn`: `NaN` (here `none`) when the previous value is zero,
else the simple return. -/
def simpleReturn (current previous : ℚ) : Option ℚ :=
  if previous = 0 then none
  else some ((current - previous) / previous)

/-- `logReturn`: `NaN` (here `none`) unless both values are positive, else
`Math.log(current / previous)`.  The transcendental `Math.log` is
abstracted as the function argument `log`; only the guard is at issue. -/
def logReturn (log : ℚ → ℚ) (current previous : ℚ) : Option ℚ :=
  if current ≤ 0 ∨ previous ≤ 0 then none
  else some (log (current / previous))

/-! ## Named concrete values used by witnesses -/

/-- The default (`parse({})`) policy configuration. -/
def defaultThresholdAtrConfig : ThresholdAtrConfig := {}

/-- The default (`parse({})`) MACD configuration. -/
def defaultMACDConfig : MACDConfig := {}

/-- The default (`parse({})`) AR(4) configuration. -/
def defaultAR4Config : AR4Config := {}

/-! ## Theorems -/

/-- C3: constructing a `ThresholdAtrPolicy` from a schema-valid
configuration throws iff `enterThreshold < exitThreshold`; when it fails
it always fails with the same error, so the failure is deterministic. -/
theorem c3_constructor_hysteresis (c : ThresholdAtrConfig)
    (_hv : ThresholdAtrConfigValid c) :
    ((∃ e, mkThresholdAtrPolicy c = .error e) ↔
      c.enterThreshold < c.exitThreshold) ∧
    (c.enterThreshold < c.exitThreshold →
      mkThresholdAtrPolicy c =
        .error "enterThreshold must be >= exitThreshold for proper hysteresis") := by
  by_cases h : c.enterThreshold < c.exitThreshold <;>
    simp [mkThresholdAtrPolicy, h]

/-- Witness for C3: a schema-valid configuration with enter 0.2 below
exit 0.3 fails construction, deterministically with the hysteresis
error. -/
theorem c3_constructor_hysteresis_witness :
    mkThresholdAtrPolicy { enterThreshold := 0.2, exitThreshold := 0.3 } =
      .error "enterThreshold must be >= exitThreshold for proper hysteresis" :=
  (c3_constructor_hysteresis { enterThreshold := 0.2, exitThreshold := 0.3 }
    (by norm_num [ThresholdAtrConfigValid])).2 (by norm_num)

/-- C7 counterexample: at `current = 1, previous = -1` the previous
value is ≤ 0, yet `simpleReturn` and `percentChange` return ordinary
numbers (−2 and −200), not `NaN`: the source guards only against
`previous === 0`, not `previous <= 0`. -/
theorem c7_counterexample :
    ((-1 : ℚ) ≤ 0) ∧
    simpleReturn 1 (-1) = some (-2) ∧ simpleReturn 1 (-1) ≠ none ∧
    percentChange 1 (-1) = some (-200) ∧ percentChange 1 (-1) ≠ none := by
  have h1 : simpleReturn 1 (-1) = some (-2) := by norm_num [simpleReturn]
  have h2 : percentChange 1 (-1) = some (-200) := by norm_num [percentChange]
  refine ⟨by norm_num, h1, ?_, h2, ?_⟩ <;> simp [h1, h2]

/-- C7 (amended): `simpleReturn` and `percentChange` return `NaN`
exactly when the previous value equals 0, and `logReturn` returns `NaN`
whenever the previous value is ≤ 0 or the current value is ≤ 0. -/
theorem c7_return_nan_guards (current previous : ℚ) (log : ℚ → ℚ) :
    (simpleReturn current previous = none ↔ previous = 0) ∧
    (percentChange current previous = none ↔ previous = 0) ∧
    (previous ≤ 0 ∨ current ≤ 0 → logReturn log current previous = none) := by
  refine ⟨?_, ?_, fun h => ?_⟩
  · by_cases h : previous = 0 <;> simp [simpleReturn, h]
  · by_cases h : previous = 0 <;> simp [percentChange, h]
  · have : current ≤ 0 ∨ previous ≤ 0 := h.symm
    simp [logReturn, this]

/-- Witness for C7 (amended) at `current = 1, previous = -1` and
`previous = 0`. -/
theorem c7_return_nan_guards_witness :
    (simpleReturn 1 0 = none ↔ (0 : ℚ) = 0) ∧
    (percentChange 1 0 = none ↔ (0 : ℚ) = 0) ∧
    logReturn id 1 (-1) = none :=
  ⟨(c7_return_nan_guards 1 0 id).1, (c7_return_nan_guards 1 0 id).2.1,
   (c7_return_nan_guards 1 (-1) id).2.2 (Or.inl (by norm_num))⟩

/-- C8 counterexample: a call rejected because `macd` is missing
returns `null` but does *not* update the stored previous values — the
state is returned untouched (`prevSignal` stays 2, not the current 5). -/
theorem c8_counterexample :
    generateSignalMACD defaultMACDConfig ⟨some 1, some 2, some 3⟩
        ⟨0, "BTCUSDT", "BINANCE", "5m",
         { macd := .undef, macd_signal := .num 5, macd_histogram := .num 5 }⟩ =
      (none, ⟨some 1, some 2, some 3⟩) ∧
    (⟨some 1, some 2, some 3⟩ : MACDState).prevSignal ≠ some 5 := by
  constructor
  · rfl
  · decide

/-- C8 (amended): a `generateSignal` call that returns `null` because
`|histogram| < minHistogram` (all three MACD values present and numeric)
still stores the current MACD/signal/histogram as the new previous state
— and that is the whole state, so nothing else changes; a call rejected
because `macd`, `macd_signal` or `macd_histogram` is missing or `NaN`
returns `null` with the state left unchanged. -/
theorem c8_null_state_update (c : MACDConfig) (s : MACDState) (f : Features)
    (m sg h : ℚ) :
    (f.vals.macd = .num m → f.vals.macd_signal = .num sg →
      f.vals.macd_histogram = .num h → |h| < c.minHistogram →
      generateSignalMACD c s f = (none, ⟨some m, some sg, some h⟩)) ∧
    ((f.vals.macd.isNum = false ∨ f.vals.macd_signal.isNum = false ∨
        f.vals.macd_histogram.isNum = false) →
      generateSignalMACD c s f = (none, s)) := by
  obtain ⟨t, sym, ex, tf, ⟨va, vc, vm, vs, vh, vr⟩⟩ := f
  constructor
  · intro h1 h2 h3 h4
    simp only at h1 h2 h3
    subst h1 h2 h3
    simp [generateSignalMACD, macdUpdateState, h4]
  · intro hmiss
    cases vm <;> cases vs <;> cases vh <;>
      first
      | rfl
      | (exfalso; simp [FeatVal.isNum] at hmiss)

/-- Witness for C8 (amended): a below-threshold call updates the state; a
missing-`macd` call leaves it unchanged. -/
theorem c8_null_state_update_witness :
    generateSignalMACD defaultMACDConfig ⟨some 1, some 2, some 3⟩
        ⟨7, "BTCUSDT", "BINANCE", "5m",
         { macd := .num 0.00005, macd_signal := .num 1,
           macd_histogram := .num 0.00005 }⟩ =
      (none, ⟨some 0.00005, some 1, some 0.00005⟩) ∧
    generateSignalMACD defaultMACDConfig ⟨some 1, some 2, some 3⟩
        ⟨7, "BTCUSDT", "BINANCE", "5m",
         { macd := .nan, macd_signal := .num 1,
           macd_histogram := .num 0.00005 }⟩ =
      (none, ⟨some 1, some 2, some 3⟩) :=
  ⟨(c8_null_state_update defaultMACDConfig ⟨some 1, some 2, some 3⟩
      ⟨7, "BTCUSDT", "BINANCE", "5m",
       { macd := .num 0.00005, macd_signal := .num 1,
         macd_histogram := .num 0.00005 }⟩ 0.00005 1 0.00005).1
      rfl rfl rfl (by norm_num [defaultMACDConfig, abs_of_pos]),
   (c8_null_state_update defaultMACDConfig ⟨some 1, some 2, some 3⟩
      ⟨7, "BTCUSDT", "BINANCE", "5m",
       { macd := .nan, macd_signal := .num 1,
         macd_histogram := .num 0.00005 }⟩ 0 0 0).2
      (Or.inl rfl)⟩

/-- C2: in a position, a signal with `|score| < exitThreshold` (ATR
and close present and numeric) yields exactly the close action — opposite
side, full current size, `reason = "exit_threshold"` — and the state
afterwards is flat (side `null`, size 0). -/
theorem c2_exit_threshold_close (c : ThresholdAtrConfig) (s : PolicyState)
    (sig : AlphaSignal) (f : Features) (sd : Side) (atr price : ℚ)
    (hside : s.side = some sd) (hsize : s.size ≠ 0)
    (hthr : c.exitThreshold ≤ c.enterThreshold)
    (hatr : f.vals.atr_14 = .num atr) (hclose : f.vals.close = .num price)
    (hexit : |sig.score| < c.exitThreshold) :
    generateAction c s sig f =
      (.ok (some
        { t := sig.t, symbol := sig.symbol, exch := sig.exch,
          side := sd.opposite, size := s.size, bracket := none,
          entry := some price,
          metadata := { signalId := sig.id, signalScore := none,
                        signalConf := none, atr := none,
                        reason := some "exit_threshold" } }),
       { side := none, size := 0 }) := by
  obtain ⟨t, sym, ex, tf, vals⟩ := f
  obtain ⟨va, vc, vm, vs, vh, vr⟩ := vals
  obtain ⟨sside, ssize⟩ := s
  replace hatr : va = FeatVal.num atr := hatr
  replace hclose : vc = FeatVal.num price := hclose
  replace hside : sside = some sd := hside
  replace hsize : ssize ≠ 0 := hsize
  subst hatr hclose hside
  have hnotenter : ¬ c.enterThreshold ≤ |sig.score| :=
    not_le.mpr (lt_of_lt_of_le hexit hthr)
  simp [generateAction, buildCloseAction, hexit, hnotenter, hsize]

/-- Witness for C2: the spec's exit scenario — long position, score 0.2
below the default exit threshold 0.3 closes the position with a sell of
the full size and flattens the state. -/
theorem c2_exit_threshold_close_witness :
    generateAction defaultThresholdAtrConfig ⟨some .buy, 1/50⟩
        ⟨"macd-7", 7, "BTCUSDT", "BINANCE", "5m", 1/5, 1/2, 300,
         .macdBullishCrossover⟩
        ⟨7, "BTCUSDT", "BINANCE", "5m",
         { atr_14 := .num 500, close := .num 50000 }⟩ =
      (.ok (some
        { t := 7, symbol := "BTCUSDT", exch := "BINANCE",
          side := Side.buy.opposite, size := 1/50, bracket := none,
          entry := some 50000,
          metadata := { signalId := "macd-7", signalScore := none,
                        signalConf := none, atr := none,
                        reason := some "exit_threshold" } }),
       { side := none, size := 0 }) :=
  c2_exit_threshold_close defaultThresholdAtrConfig ⟨some .buy, 1/50⟩
    ⟨"macd-7", 7, "BTCUSDT", "BINANCE", "5m", 1/5, 1/2, 300,
     .macdBullishCrossover⟩
    ⟨7, "BTCUSDT", "BINANCE", "5m",
     { atr_14 := .num 500, close := .num 50000 }⟩
    .buy 500 50000 rfl (by norm_num) (by norm_num [defaultThresholdAtrConfig])
    rfl rfl (by norm_num [defaultThresholdAtrConfig, abs_of_pos])

/-- C1: in a position, an opposite-sign signal with
`|score| ≥ enterThreshold` (ATR and close present and numeric) returns
only the new open action for the opposite side — an action with a
bracket and no close-reason tag — and the state afterwards reports the
new side. -/
theorem c1_reversal_emits_open_only (c : ThresholdAtrConfig) (s : PolicyState)
    (sig : AlphaSignal) (f : Features) (sd : Side) (atr price : ℚ)
    (hside : s.side = some sd) (hsize : s.size ≠ 0)
    (hatr : f.vals.atr_14 = .num atr) (hclose : f.vals.close = .num price)
    (hopp : (sd = Side.buy ∧ sig.score < 0) ∨ (sd = Side.sell ∧ 0 < sig.score))
    (henter : c.enterThreshold ≤ |sig.score|) :
    generateAction c s sig f =
      (.ok (some (buildOpenAction c sig price atr sd.opposite).1),
       (buildOpenAction c sig price atr sd.opposite).2) ∧
    (buildOpenAction c sig price atr sd.opposite).1.side = sd.opposite ∧
    (buildOpenAction c sig price atr sd.opposite).1.bracket ≠ none ∧
    (buildOpenAction c sig price atr sd.opposite).1.metadata.reason = none ∧
    (buildOpenAction c sig price atr sd.opposite).1.metadata.atr = some atr ∧
    (buildOpenAction c sig price atr sd.opposite).2.side = some sd.opposite := by
  obtain ⟨t, sym, ex, tf, vals⟩ := f
  obtain ⟨va, vc, vm, vs, vh, vr⟩ := vals
  obtain ⟨sside, ssize⟩ := s
  replace hatr : va = FeatVal.num atr := hatr
  replace hclose : vc = FeatVal.num price := hclose
  replace hside : sside = some sd := hside
  replace hsize : ssize ≠ 0 := hsize
  subst hatr hclose hside
  rcases hopp with ⟨rfl, hneg⟩ | ⟨rfl, hpos⟩
  · have hdir : (if 0 < sig.score then Side.buy else Side.sell) = Side.sell :=
      if_neg (not_lt.mpr hneg.le)
    exact ⟨by simp [generateAction, buildCloseAction, hdir, henter, hsize,
        Side.opposite],
      rfl, by simp [buildOpenAction], rfl, rfl, rfl⟩
  · have hdir : (if 0 < sig.score then Side.buy else Side.sell) = Side.buy :=
      if_pos hpos
    exact ⟨by simp [generateAction, buildCloseAction, hdir, henter, hsize,
        Side.opposite],
      rfl, by simp [buildOpenAction], rfl, rfl, rfl⟩

/-- Witness for C1: the spec's reversal scenario — long 1/50 at price
50000/ATR 500, then score −0.9 opens a short in the same call and the
state reports side sell. -/
theorem c1_reversal_emits_open_only_witness :
    generateAction defaultThresholdAtrConfig ⟨some .buy, 1/50⟩
        ⟨"macd-8", 8, "BTCUSDT", "BINANCE", "5m", -9/10, 1/2, 300,
         .macdBearishCrossover⟩
        ⟨8, "BTCUSDT", "BINANCE", "5m",
         { atr_14 := .num 500, close := .num 50000 }⟩ =
      (.ok (some (buildOpenAction defaultThresholdAtrConfig
          ⟨"macd-8", 8, "BTCUSDT", "BINANCE", "5m", -9/10, 1/2, 300,
           .macdBearishCrossover⟩ 50000 500 Side.buy.opposite).1),
       (buildOpenAction defaultThresholdAtrConfig
          ⟨"macd-8", 8, "BTCUSDT", "BINANCE", "5m", -9/10, 1/2, 300,
           .macdBearishCrossover⟩ 50000 500 Side.buy.opposite).2) ∧
    (buildOpenAction defaultThresholdAtrConfig
        ⟨"macd-8", 8, "BTCUSDT", "BINANCE", "5m", -9/10, 1/2, 300,
         .macdBearishCrossover⟩ 50000 500 Side.buy.opposite).1.side =
      Side.buy.opposite ∧
    (buildOpenAction defaultThresholdAtrConfig
        ⟨"macd-8", 8, "BTCUSDT", "BINANCE", "5m", -9/10, 1/2, 300,
         .macdBearishCrossover⟩ 50000 500 Side.buy.opposite).1.bracket ≠
      none ∧
    (buildOpenAction defaultThresholdAtrConfig
        ⟨"macd-8", 8, "BTCUSDT", "BINANCE", "5m", -9/10, 1/2, 300,
         .macdBearishCrossover⟩ 50000 500
          Side.buy.opposite).1.metadata.reason = none ∧
    (buildOpenAction defaultThresholdAtrConfig
        ⟨"macd-8", 8, "BTCUSDT", "BINANCE", "5m", -9/10, 1/2, 300,
         .macdBearishCrossover⟩ 50000 500
          Side.buy.opposite).1.metadata.atr = some 500 ∧
    (buildOpenAction defaultThresholdAtrConfig
        ⟨"macd-8", 8, "BTCUSDT", "BINANCE", "5m", -9/10, 1/2, 300,
         .macdBearishCrossover⟩ 50000 500 Side.buy.opposite).2.side =
      some Side.buy.opposite :=
  c1_reversal_emits_open_only defaultThresholdAtrConfig ⟨some .buy, 1/50⟩
    ⟨"macd-8", 8, "BTCUSDT", "BINANCE", "5m", -9/10, 1/2, 300,
     .macdBearishCrossover⟩
    ⟨8, "BTCUSDT", "BINANCE", "5m",
     { atr_14 := .num 500, close := .num 50000 }⟩
    .buy 500 50000 rfl (by norm_num) rfl rfl
    (Or.inl ⟨rfl, by norm_num⟩)
    (by norm_num [defaultThresholdAtrConfig, abs_of_neg])

/-- The PolicyState invariant of C9: flat exactly when the size is zero. -/
def PolicyInv (s : PolicyState) : Prop := s.side = none ↔ s.size = 0

/-- The position size of an open action is never zero when the schema
constraints `fixedNotional > 0` and `maxSize > 0` hold. -/
theorem openSize_ne_zero (c : ThresholdAtrConfig) (price atr : ℚ)
    (hfn : 0 < c.fixedNotional) (hmax : 0 < c.maxSize) :
    openSize c price atr ≠ 0 := by
  unfold openSize
  set denom :=
    if c.useAtrSizing then price * (atr * c.atrSizingMultiplier) else price
    with hd
  by_cases h : denom = 0
  · simpa [h] using ne_of_gt hmax
  · simp only [h, if_false]
    rcases min_choice (c.fixedNotional / denom) c.maxSize with hm | hm <;>
      rw [hm]
    · exact div_ne_zero (ne_of_gt hfn) h
    · exact ne_of_gt hmax

/-- C9: the flat-iff-zero-size invariant holds in the initial state,
after `reset`, after construction, and is preserved by every
`generateAction` call (under the schema constraints `fixedNotional > 0`
and `maxSize > 0`), so it holds in every reachable state. -/
theorem c9_policy_state_invariant (c : ThresholdAtrConfig)
    (hfn : 0 < c.fixedNotional) (hmax : 0 < c.maxSize) :
    PolicyInv initPolicyState ∧
    (∀ s : PolicyState, PolicyInv (policyReset s)) ∧
    (∀ p, mkThresholdAtrPolicy c = .ok p → PolicyInv p.2) ∧
    (∀ (s : PolicyState) (sig : AlphaSignal) (f : Features),
      PolicyInv s → PolicyInv (generateAction c s sig f).2) := by
  have hinit : PolicyInv initPolicyState := by simp [PolicyInv, initPolicyState]
  refine ⟨hinit, fun s => hinit, fun p hp => ?_, ?_⟩
  · unfold mkThresholdAtrPolicy at hp
    split at hp
    · exact absurd hp (by simp)
    · cases hp
      exact hinit
  · intro s sig f hInv
    obtain ⟨t, sym, ex, tf, vals⟩ := f
    obtain ⟨va, vc, vm, vs, vh, vr⟩ := vals
    obtain ⟨sside, ssize⟩ := s
    have hopen : ∀ (price atr : ℚ) (dir : Side),
        PolicyInv (buildOpenAction c sig price atr dir).2 := fun price atr dir => by
      simp [PolicyInv, buildOpenAction, openSize_ne_zero c price atr hfn hmax]
    cases va <;> cases vc <;> try exact hInv
    rename_i atr price
    cases sside with
    | none =>
      by_cases henter : c.enterThreshold ≤ |sig.score|
      · simpa [generateAction, henter] using hopen price atr _
      · simpa [generateAction, henter] using hInv
    | some cur =>
      by_cases h1 : (if 0 < sig.score then Side.buy else Side.sell) ≠ cur ∧
          c.enterThreshold ≤ |sig.score|
      · by_cases hz : ssize = 0
        · simpa [generateAction, buildCloseAction, h1, hz] using hInv
        · simpa [generateAction, buildCloseAction, h1, hz] using
            hopen price atr _
      · by_cases h2 : |sig.score| < c.exitThreshold
        · by_cases hz : ssize = 0
          · simpa [generateAction, buildCloseAction, h1, h2, hz] using hInv
          · simp [generateAction, buildCloseAction, h1, h2, hz, PolicyInv]
        · simpa [generateAction, h1, h2] using hInv

/-- Witness for C9 at the default configuration, instantiated on a
concrete open-long state and a concrete exit call. -/
theorem c9_policy_state_invariant_witness :
    PolicyInv initPolicyState ∧
    PolicyInv (policyReset ⟨some Side.buy, 5⟩) ∧
    PolicyInv (defaultThresholdAtrConfig, initPolicyState).2 ∧
    PolicyInv (generateAction defaultThresholdAtrConfig ⟨some Side.buy, 1/50⟩
      ⟨"macd-7", 7, "BTCUSDT", "BINANCE", "5m", 1/5, 1/2, 300,
       .macdBullishCrossover⟩
      ⟨7, "BTCUSDT", "BINANCE", "5m",
       { atr_14 := .num 500, close := .num 50000 }⟩).2 := by
  have h := c9_policy_state_invariant defaultThresholdAtrConfig
    (by norm_num [defaultThresholdAtrConfig])
    (by norm_num [defaultThresholdAtrConfig])
  refine ⟨h.1, h.2.1 ⟨some Side.buy, 5⟩, ?_, ?_⟩
  · exact h.2.2.1 (defaultThresholdAtrConfig, initPolicyState)
      (by rw [mkThresholdAtrPolicy,
        if_neg (by norm_num [defaultThresholdAtrConfig])])
  · exact h.2.2.2 ⟨some Side.buy, 1/50⟩
      ⟨"macd-7", 7, "BTCUSDT", "BINANCE", "5m", 1/5, 1/2, 300,
       .macdBullishCrossover⟩
      ⟨7, "BTCUSDT", "BINANCE", "5m",
       { atr_14 := .num 500, close := .num 50000 }⟩
      ⟨fun hside => by simp at hside, fun hsz => by norm_num at hsz⟩

/-- C5: with crossover mode on and previous MACD/signal observed, a
sign flip of `MACD − signal` (with all three values numeric and
`|histogram| ≥ minHistogram`) yields a signal with score exactly ±1 in
the flip's direction, confidence exactly 0.8, and a rationale naming the
crossover direction. -/
theorem c5_macd_crossover_signal (c : MACDConfig) (s : MACDState)
    (f : Features) (pm ps m sg h : ℚ)
    (huse : c.useCrossover = true)
    (hpm : s.prevMacd = some pm) (hps : s.prevSignal = some ps)
    (hm : f.vals.macd = .num m) (hsg : f.vals.macd_signal = .num sg)
    (hh : f.vals.macd_histogram = .num h)
    (hmin : c.minHistogram ≤ |h|) :
    (pm < ps → sg < m →
      (generateSignalMACD c s f).1 = some
        { id := "macd-" ++ toString f.t, t := f.t, symbol := f.symbol,
          exch := f.exch, tf := f.tf, score := 1, conf := 0.8,
          horizon_sec := c.horizonSec, explain := .macdBullishCrossover }) ∧
    (ps < pm → m < sg →
      (generateSignalMACD c s f).1 = some
        { id := "macd-" ++ toString f.t, t := f.t, symbol := f.symbol,
          exch := f.exch, tf := f.tf, score := -1, conf := 0.8,
          horizon_sec := c.horizonSec, explain := .macdBearishCrossover }) := by
  obtain ⟨t, sym, ex, tf, vals⟩ := f
  obtain ⟨va, vc, vm, vs, vh, vr⟩ := vals
  obtain ⟨spm, sps, sph⟩ := s
  replace hm : vm = FeatVal.num m := hm
  replace hsg : vs = FeatVal.num sg := hsg
  replace hh : vh = FeatVal.num h := hh
  replace hpm : spm = some pm := hpm
  replace hps : sps = some ps := hps
  subst hm hsg hh hpm hps
  have hnlt : ¬ |h| < c.minHistogram := not_lt.mpr hmin
  constructor
  · intro h1 h2
    simp [generateSignalMACD, detectCrossover, macdUpdateState, huse, hnlt,
      h1, h2]
    norm_num
  · intro h1 h2
    have hnp : ¬ pm < ps := lt_asymm h1
    simp [generateSignalMACD, detectCrossover, macdUpdateState, huse, hnlt,
      hnp, h1, h2]
    norm_num

/-- Witness for C5: the spec scenario — previous (MACD −0.01, signal 0),
current (MACD 0.01, signal 0, histogram 0.01) yields score 1, confidence
0.8 and a bullish-crossover rationale under the default configuration. -/
theorem c5_macd_crossover_signal_witness :
    (generateSignalMACD defaultMACDConfig ⟨some (-0.01), some 0, some 0.01⟩
      ⟨5, "BTCUSDT", "BINANCE", "5m",
       { macd := .num 0.01, macd_signal := .num 0,
         macd_histogram := .num 0.01 }⟩).1 = some
      { id := "macd-" ++ toString (5 : ℤ), t := 5, symbol := "BTCUSDT",
        exch := "BINANCE", tf := "5m", score := 1, conf := 0.8,
        horizon_sec := defaultMACDConfig.horizonSec,
        explain := .macdBullishCrossover } :=
  (c5_macd_crossover_signal defaultMACDConfig ⟨some (-0.01), some 0, some 0.01⟩
    ⟨5, "BTCUSDT", "BINANCE", "5m",
     { macd := .num 0.01, macd_signal := .num 0,
       macd_histogram := .num 0.01 }⟩
    (-0.01) 0 0.01 0 0.01 rfl rfl rfl rfl rfl rfl
    (by norm_num [defaultMACDConfig, abs_of_pos])).1
    (by norm_num) (by norm_num)

/-- C4: determinism — two freshly constructed instances of the same
component (MACD alpha, AR(4) alpha, or the threshold-ATR policy) with the
same configuration, fed the same input sequence call by call, produce
identical output sequences and end in identical states. -/
theorem c4_component_determinism
    (cm : MACDConfig) (ca : AR4Config) (cp : ThresholdAtrConfig)
    (fs : List Features) (acts : List (AlphaSignal × Features))
    (s₁ s₂ : MACDState) (t₁ t₂ : AR4State) (p₁ p₂ : PolicyState)
    (hs₁ : s₁ = initMACDState) (hs₂ : s₂ = initMACDState)
    (ht₁ : t₁ = initAR4State) (ht₂ : t₂ = initAR4State)
    (hp₁ : p₁ = initPolicyState) (hp₂ : p₂ = initPolicyState) :
    runMACD cm s₁ fs = runMACD cm s₂ fs ∧
    runAR4 ca t₁ fs = runAR4 ca t₂ fs ∧
    runPolicy cp p₁ acts = runPolicy cp p₂ acts := by
  subst hs₁ hs₂ ht₁ ht₂ hp₁ hp₂
  exact ⟨rfl, rfl, rfl⟩

/-- Witness for C4 at the default configurations on a concrete one-call
input sequence. -/
theorem c4_component_determinism_witness :
    runMACD defaultMACDConfig initMACDState
        [⟨5, "BTCUSDT", "BINANCE", "5m",
          { macd := .num 0.01, macd_signal := .num 0,
            macd_histogram := .num 0.01 }⟩] =
      runMACD defaultMACDConfig initMACDState
        [⟨5, "BTCUSDT", "BINANCE", "5m",
          { macd := .num 0.01, macd_signal := .num 0,
            macd_histogram := .num 0.01 }⟩] ∧
    runAR4 defaultAR4Config initAR4State
        [⟨5, "BTCUSDT", "BINANCE", "5m",
          { macd := .num 0.01, macd_signal := .num 0,
            macd_histogram := .num 0.01 }⟩] =
      runAR4 defaultAR4Config initAR4State
        [⟨5, "BTCUSDT", "BINANCE", "5m",
          { macd := .num 0.01, macd_signal := .num 0,
            macd_histogram := .num 0.01 }⟩] ∧
    runPolicy defaultThresholdAtrConfig initPolicyState [] =
      runPolicy defaultThresholdAtrConfig initPolicyState [] :=
  c4_component_determinism defaultMACDConfig defaultAR4Config
    defaultThresholdAtrConfig
    [⟨5, "BTCUSDT", "BINANCE", "5m",
      { macd := .num 0.01, macd_signal := .num 0,
        macd_histogram := .num 0.01 }⟩] []
    initMACDState initMACDState initAR4State initAR4State
    initPolicyState initPolicyState rfl rfl rfl rfl rfl rfl

/-- A checked elimination run that completes (no pivot below `1e-10`)
computes exactly what the unchecked elimination computes. -/
theorem elimLoop_eq_noCheck (n : ℕ) :
    ∀ (steps : ℕ) (aug r : List (List ℚ)),
      elimLoop n steps aug = some r → elimLoopNoCheck n steps aug = r := by
  intro steps
  induction steps with
  | zero =>
    intro aug r hr
    simp only [elimLoop, Option.some.injEq] at hr
    simpa [elimLoopNoCheck] using hr
  | succ k ih =>
    intro aug r hr
    simp only [elimLoop] at hr
    simp only [elimLoopNoCheck]
    split at hr
    · exact absurd hr (by simp)
    · exact ih _ _ hr

/-- C6: `invertMatrix` returns the identity matrix whenever the
elimination meets a pivot of magnitude below `1e-10` at any step, and
otherwise returns the Gaussian-elimination inverse. -/
theorem c6_singular_pivot_identity_fallback (m : List (List ℚ)) :
    invertMatrix m =
      if hitsSmallPivot m then idMatrix m.length else gaussInverse m := by
  rcases helim : elimLoop m.length m.length (augmentMatrix m) with _ | aug
  · simp [invertMatrix, hitsSmallPivot, gaussInverse, helim]
  · have hnc := elimLoop_eq_noCheck m.length m.length (augmentMatrix m) aug helim
    simp [invertMatrix, hitsSmallPivot, gaussInverse, helim, hnc]

/-- `fitAR4` on fewer than 10 returns is the all-zero fit. -/
theorem fitAR4_of_short (rs : List ℚ) (h : rs.length < 10) :
    fitAR4 rs = zeroFit := by
  simp [fitAR4, h]

/-- The pushed history grows by at most one element. -/
theorem ar4PushHistory_length_le (c : AR4Config) (history : List ℚ) (r : ℚ) :
    (ar4PushHistory c history r).length ≤ history.length + 1 := by
  unfold ar4PushHistory
  simp only []
  split <;> simp

/-- Refitting a short history (or keeping a zero-R² fit) always leaves a
fitted model with `R² = 0`. -/
theorem ar4Refit_zero (coefficients : Option ARCoefficients)
    (history2 : List ℚ) (hlt10 : history2.length < 10)
    (hinv : coefficients = none ∨
      ∃ k, coefficients = some k ∧ k.rSquared = 0) :
    ∃ k, ar4Refit coefficients history2 = some k ∧ k.rSquared = 0 := by
  unfold ar4Refit
  split
  · exact ⟨fitAR4 history2, rfl, by rw [fitAR4_of_short history2 hlt10]; rfl⟩
  · rename_i hcond
    push_neg at hcond
    obtain ⟨k, hk, hk0⟩ := hinv.resolve_left hcond.2
    exact ⟨k, by rw [hk], hk0⟩

/-- A zero-R² fit below a positive `minRSquared` threshold never emits. -/
theorem ar4Emit_none_of_zero (c : AR4Config) (f : Features)
    (k : ARCoefficients) (history2 : List ℚ)
    (hk0 : k.rSquared = 0) (h0 : 0 < c.minRSquared) :
    ar4Emit c f (some k) history2 = none := by
  unfold ar4Emit
  by_cases h4 : history2.length < 4 <;> simp [h4, hk0, h0]

/-- One `AR4Alpha.generateSignal` call on a numeric return, starting from
a state whose fit (if any) has `R² = 0` and whose history stays short:
the call emits no signal and the new state again carries a zero-R² fit. -/
theorem stepAR4_num_null (c : AR4Config) (s : AR4State) (f : Features)
    (r : ℚ) (h0 : 0 < c.minRSquared) (hv : f.vals.return_1 = .num r)
    (hinv : s.coefficients = none ∨
      ∃ k, s.coefficients = some k ∧ k.rSquared = 0)
    (hlen : s.returnHistory.length + 1 < 10) :
    ∃ (hist2 : List ℚ) (k : ARCoefficients),
      hist2.length ≤ s.returnHistory.length + 1 ∧ k.rSquared = 0 ∧
      generateSignalAR4 c s f = (none, ⟨some k, hist2⟩) := by
  have hlen2 := ar4PushHistory_length_le c s.returnHistory r
  have hlt10 : (ar4PushHistory c s.returnHistory r).length < 10 :=
    lt_of_le_of_lt hlen2 hlen
  obtain ⟨k, hk, hk0⟩ :=
    ar4Refit_zero s.coefficients (ar4PushHistory c s.returnHistory r) hlt10
      hinv
  refine ⟨ar4PushHistory c s.returnHistory r, k, hlen2, hk0, ?_⟩
  obtain ⟨t, sym, ex, tf, vals⟩ := f
  obtain ⟨va, vc, vm, vs, vh, vr⟩ := vals
  replace hv : vr = FeatVal.num r := hv
  subst hv
  show (ar4Emit c _ (ar4Refit s.coefficients _) _, _) = _
  rw [hk, ar4Emit_none_of_zero c _ k _ hk0 h0]

/-- Running `AR4Alpha` from a zero-R² (or unfitted) state: as long as the
accumulated history plus the numeric returns still to come stay below 10,
every call returns `null`. -/
theorem runAR4_null_of_few_returns (c : AR4Config) (h0 : 0 < c.minRSquared) :
    ∀ (fs : List Features) (s : AR4State),
      s.returnHistory.length +
        fs.countP (fun f => f.vals.return_1.isNum) < 10 →
      (s.coefficients = none ∨
        ∃ k, s.coefficients = some k ∧ k.rSquared = 0) →
      (runAR4 c s fs).1 = List.replicate fs.length none := by
  intro fs
  induction fs with
  | nil =>
    intro s _ _
    rfl
  | cons f rest ih =>
    intro s hlen hinv
    cases hv : f.vals.return_1 with
    | num r =>
      have hcnt : (f :: rest).countP (fun f => f.vals.return_1.isNum) =
          rest.countP (fun f => f.vals.return_1.isNum) + 1 := by
        simp [List.countP_cons, hv, FeatVal.isNum]
      rw [hcnt] at hlen
      obtain ⟨hist2, k, hl2, hk0, hstep⟩ :=
        stepAR4_num_null c s f r h0 hv hinv (by omega)
      have hrest := ih ⟨some k, hist2⟩ (by simpa using by omega)
        (Or.inr ⟨k, rfl, hk0⟩)
      rw [runAR4, hstep]
      simp [hrest, List.replicate_succ]
    | undef =>
      have hstep : generateSignalAR4 c s f = (none, s) := by
        obtain ⟨t, sym, ex, tf, ⟨va, vc, vm, vs, vh, vr⟩⟩ := f
        replace hv : vr = FeatVal.undef := hv
        subst hv
        rfl
      have hcnt : (f :: rest).countP (fun f => f.vals.return_1.isNum) =
          rest.countP (fun f => f.vals.return_1.isNum) := by
        simp [List.countP_cons, hv, FeatVal.isNum]
      rw [hcnt] at hlen
      have hrest := ih s hlen hinv
      rw [runAR4, hstep]
      simp [hrest, List.replicate_succ]
    | nan =>
      have hstep : generateSignalAR4 c s f = (none, s) := by
        obtain ⟨t, sym, ex, tf, ⟨va, vc, vm, vs, vh, vr⟩⟩ := f
        replace hv : vr = FeatVal.nan := hv
        subst hv
        rfl
      have hcnt : (f :: rest).countP (fun f => f.vals.return_1.isNum) =
          rest.countP (fun f => f.vals.return_1.isNum) := by
        simp [List.countP_cons, hv, FeatVal.isNum]
      rw [hcnt] at hlen
      have hrest := ih s hlen hinv
      rw [runAR4, hstep]
      simp [hrest, List.replicate_succ]

/-- C10: `fitAR4` on fewer than 10 returns yields all-zero
coefficients with `R² = 0`; consequently an `AR4Alpha` configured with
`minRSquared > 0` returns `null` on every call of a run that accumulates
fewer than 10 numeric returns, even though 4 returns suffice for the
prediction formula. -/
theorem c10_ar4_needs_ten_returns :
    (∀ rs : List ℚ, rs.length < 10 → fitAR4 rs = zeroFit) ∧
    (∀ (c : AR4Config) (fs : List Features), 0 < c.minRSquared →
      fs.countP (fun f => f.vals.return_1.isNum) < 10 →
      (runAR4 c initAR4State fs).1 = List.replicate fs.length none) := by
  refine ⟨fitAR4_of_short, fun c fs h0 hcnt => ?_⟩
  exact runAR4_null_of_few_returns c h0 fs initAR4State
    (by simpa [initAR4State] using hcnt) (Or.inl rfl)

/-- Witness for C10: a three-element return list fits to all zeros, and a
two-call run with numeric returns under the default configuration (with
`minRSquared = 0.1 > 0`) emits no signal. -/
theorem c10_ar4_needs_ten_returns_witness :
    fitAR4 [1, 2, 3] = zeroFit ∧
    (runAR4 defaultAR4Config initAR4State
      [⟨1, "BTCUSDT", "BINANCE", "5m", { return_1 := .num 0.01 }⟩,
       ⟨2, "BTCUSDT", "BINANCE", "5m", { return_1 := .num 0.02 }⟩]).1 =
      List.replicate 2 none :=
  ⟨c10_ar4_needs_ten_returns.1 [1, 2, 3] (by norm_num),
   c10_ar4_needs_ten_returns.2 defaultAR4Config
     [⟨1, "BTCUSDT", "BINANCE", "5m", { return_1 := .num 0.01 }⟩,
      ⟨2, "BTCUSDT", "BINANCE", "5m", { return_1 := .num 0.02 }⟩]
     (by norm_num [defaultAR4Config])
     (by simp [List.countP_cons, FeatVal.isNum])⟩

end AgenaiTrader
